import Mathlib

/-!
Shallow embedding of the payment-event reconciliation core of the ShopIt
backend (src/controllers/PaymentController.js): the checkout-session
initiator `paymentProcess`, the webhook handler `checkOutSession` (signature
check, event dispatch, order reconciliation with stock decrement), and the
status query `paymentVerify`.  Persistent stores (orders, products, the
provider's customers and sessions) are modelled as lists of records; the
provider client is modelled as a deterministic state transformer.  Webhook
processing of the line items is embedded sequentially, one line item at a
time, in source order.
-/

namespace ShopIt

/-- A buyer record as used by `paymentProcess` (`User.findOne`). -/
structure UserR where
  _id : String
  email : String
deriving DecidableEq

/-- A buyer-supplied cart entry, with exactly the fields the controller
reads: `_id`, `size`, `color`, `quantity`, `price`, `discount`, `title`. -/
structure ReqItem where
  _id : String
  size : String
  color : String
  quantity : Nat
  price : ℚ
  discount : ℚ
  title : String
deriving DecidableEq

/-- One entry of the metadata snapshot serialized onto the provider-side
customer record: the shape produced by the `orderData` map in
`paymentProcess` and read back by `checkOutSession`. -/
structure CartItem where
  _id : String
  size : String
  color : String
  quantity : Nat
  userId : String
deriving DecidableEq

/-- A provider-side customer record.  `metadataCart` is the parsed content
of `metadata.cart`; `none` stands for an absent or unparsable blob
(`JSON.parse` of it throws). -/
structure Customer where
  id : String
  email : String
  metadataCart : Option (List CartItem)
deriving DecidableEq

/-- One `line_items` entry of a checkout-session request.
`unit_amount_decimal` holds the numeric value, in minor currency units
(cents), of the decimal string the code puts in that field. -/
structure LineItem where
  name : String
  unit_amount_decimal : ℤ
  quantity : Nat
deriving DecidableEq

/-- A provider-side checkout session. -/
structure Session where
  id : String
  customer : String
  line_items : List LineItem
  url : String
  payment_status : String
deriving DecidableEq

/-- The provider-side state: customers and sessions created so far, plus a
counter used to mint fresh identifiers. -/
structure StripeState where
  customers : List Customer
  sessions : List Session
  counter : Nat
deriving DecidableEq

/-- A persisted Order record, with the fields `OrderModel.create` is given
in `checkOutSession`. -/
structure Order where
  productId : String
  userId : String
  size : String
  color : String
  quantities : Nat
  address : String
  review : Bool
deriving DecidableEq

/-- A persisted Product record (fields used by the product controller and
the reconciler). -/
structure Product where
  _id : String
  title : String
  price : Nat
  discount : Nat
  stock : Nat
  category : String
  colors : List String
  sizes : List String
  image1 : String
  image2 : String
  image3 : String
  description : String
deriving DecidableEq

/-- The local persisted store shared by the webhook path. -/
structure Db where
  orders : List Order
  products : List Product
deriving DecidableEq

/-- JavaScript `Math.round`: round half toward positive infinity. -/
def jsRound (x : ℚ) : ℤ := ⌊x + 1/2⌋

/-- `stripe.customers.create`: appends a customer with a fresh id and the
given email and metadata snapshot. -/
def createCustomer (st : StripeState) (email : String)
    (cart : Option (List CartItem)) : Customer × StripeState :=
  let c : Customer := { id := "cus_" ++ toString st.counter, email := email,
                        metadataCart := cart }
  (c, { st with customers := st.customers ++ [c], counter := st.counter + 1 })

/-- `stripe.checkout.sessions.create`: appends a session with a fresh id, a
provider-issued redirect URL and payment status `unpaid`. -/
def createSession (st : StripeState) (customerId : String)
    (items : List LineItem) : Session × StripeState :=
  let sid := "cs_" ++ toString st.counter
  let s : Session := { id := sid, customer := customerId, line_items := items,
                       url := "https://checkout.example/" ++ sid,
                       payment_status := "unpaid" }
  (s, { st with sessions := st.sessions ++ [s], counter := st.counter + 1 })

/-- The `orderData` map of `paymentProcess`: each cart entry is snapshotted
as `{_id, size, color, quantity, userId: user._id}`. -/
def orderData (user : UserR) (cart : List ReqItem) : List CartItem :=
  cart.map (fun item =>
    { _id := item._id, size := item.size, color := item.color,
      quantity := item.quantity, userId := user._id })

/-- The per-item `line_items` computation of `paymentProcess`:
`actualPrice = Math.round(price - price * discount/100)`, then
`parseFloat` (identity on a number), `* 100`, `toFixed(2)`; the resulting
decimal string denotes `actualPrice * 100` minor units. -/
def lineItemOf (item : ReqItem) : LineItem :=
  let percentage := item.discount / 100
  let actualPrice := jsRound (item.price - item.price * percentage)
  { name := item.title, unit_amount_decimal := actualPrice * 100,
    quantity := item.quantity }

/-- Response of the checkout-session initiator: 404 `User not found`, or
200 with the session URL. -/
inductive PayResponse where
  | notFound
  | ok (url : String)
deriving DecidableEq

/-- `paymentProcess`: look up the buyer, snapshot the cart into customer
metadata, create a checkout session with one line item per cart entry, and
return the provider-issued redirect URL. -/
def paymentProcess (users : List UserR) (cart : List ReqItem) (id : String)
    (st : StripeState) : PayResponse × StripeState :=
  match users.find? (fun u => u._id == id) with
  | none => (.notFound, st)
  | some user =>
    let od := orderData user cart
    let cst := createCustomer st user.email (some od)
    let items := cart.map lineItemOf
    let sst := createSession cst.2 cst.1.id items
    (.ok sst.1.url, sst.2)

/-- The payload fields of a webhook event that `checkOutSession` reads:
`data.object.customer` and `data.object.customer_details.address`. -/
structure EventData where
  customer : String
  address : String
deriving DecidableEq

/-- A verified provider event: a type tag and its payload. -/
structure Event where
  type : String
  data : EventData
deriving DecidableEq

/-- The Order record built by `OrderModel.create` for one line item: the
review flag is true exactly when `OrderModel.findOne({productId, userId})
.where("review").equals(true)` finds a prior order. -/
def createdOrder (db : Db) (addr : String) (ctr : CartItem) : Order :=
  { productId := ctr._id, userId := ctr.userId, size := ctr.size,
    color := ctr.color, quantities := ctr.quantity, address := addr,
    review := db.orders.any (fun o =>
      o.productId == ctr._id && o.userId == ctr.userId && o.review) }

/-- `ProductModel.findByIdAndUpdate(pid, { stock })`: set only the `stock`
field of the product with identifier `pid`. -/
def setStock (products : List Product) (pid : String) (newStock : Nat) :
    List Product :=
  products.map (fun p => if p._id == pid then { p with stock := newStock } else p)

/-- Reconciliation of one line item: create the order, then, if the product
exists, decrement its stock by the quantity, clamped at zero
(`Math.max(product.stock - ctr.quantity, 0)`), and persist only the stock
field. -/
def processItem (addr : String) (db : Db) (ctr : CartItem) : Db :=
  let db1 : Db := { db with orders := db.orders ++ [createdOrder db addr ctr] }
  match db1.products.find? (fun p => p._id == ctr._id) with
  | none => db1
  | some product =>
    let stock : ℤ := max ((product.stock : ℤ) - (ctr.quantity : ℤ)) 0
    { db1 with products := setStock db1.products ctr._id stock.toNat }

/-- Reconciliation of all line items of one completed-checkout event, in
source order. -/
def processItems (db : Db) (addr : String) (items : List CartItem) : Db :=
  items.foldl (processItem addr) db

/-- Outcome of one webhook delivery: either a response with the given HTTP
status was sent, or an exception escaped the handler and no response was
sent; either way the store is in the given state afterwards. -/
inductive WebhookOutcome where
  | reply (status : Nat) (db : Db)
  | thrown (db : Db)
deriving DecidableEq

/-- The store state an outcome leaves behind. -/
def WebhookOutcome.db : WebhookOutcome → Db
  | .reply _ d => d
  | .thrown d => d

/-- `checkOutSession`: `verified` is the result of
`stripe.webhooks.constructEvent` (`none` means signature verification
threw, answered with 400).  A verified `checkout.session.completed` event
retrieves the customer and parses its metadata snapshot; a missing customer
or an absent/unparsable blob makes the handler throw before any store write
and before `response.send()`.  Otherwise the items are reconciled and
`response.send()` (status 200) runs; every other event type just reaches
`response.send()`. -/
def checkOutSession (verified : Option Event) (customers : List Customer)
    (db : Db) : WebhookOutcome :=
  match verified with
  | none => .reply 400 db
  | some event =>
    if event.type = "checkout.session.completed" then
      match customers.find? (fun c => c.id == event.data.customer) with
      | none => .thrown db
      | some cust =>
        match cust.metadataCart with
        | none => .thrown db
        | some cart => .reply 200 (processItems db event.data.address cart)
    else .reply 200 db

/-- Response of the status query: 200 with the fixed message and the
session's payment status verbatim, or 500 with the provider error
message. -/
inductive VerifyResponse where
  | ok (msg : String) (payment_status : String)
  | err (message : String)
deriving DecidableEq

/-- `paymentVerify`: retrieve the session from the provider; 200 with its
`payment_status` on success, 500 with the error message when the provider
throws (no such session).  No local store is read or written. -/
def paymentVerify (sessions : List Session) (id : String) :
    Nat × VerifyResponse :=
  match sessions.find? (fun s => s.id == id) with
  | some s => (200, .ok "Your payment has verfied successfully" s.payment_status)
  | none => (500, .err ("No such checkout session: " ++ id))

/-- Total quantity requested for product `pid` across a list of line
items. -/
def totalQty : List CartItem → String → Nat
  | [], _ => 0
  | c :: cs, pid => (if c._id == pid then c.quantity else 0) + totalQty cs pid

/-- Two product records that agree on every field except possibly
`stock`. -/
def agreesExceptStock (p q : Product) : Prop :=
  p._id = q._id ∧ p.title = q.title ∧ p.price = q.price ∧
  p.discount = q.discount ∧ p.category = q.category ∧ p.colors = q.colors ∧
  p.sizes = q.sizes ∧ p.image1 = q.image1 ∧ p.image2 = q.image2 ∧
  p.image3 = q.image3 ∧ p.description = q.description

theorem agreesExceptStock_refl (p : Product) : agreesExceptStock p p := by
  simp [agreesExceptStock]

theorem agreesExceptStock_trans {p q r : Product}
    (h1 : agreesExceptStock p q) (h2 : agreesExceptStock q r) :
    agreesExceptStock p r := by
  obtain ⟨a1, a2, a3, a4, a5, a6, a7, a8, a9, a10, a11⟩ := h1
  obtain ⟨b1, b2, b3, b4, b5, b6, b7, b8, b9, b10, b11⟩ := h2
  exact ⟨a1.trans b1, a2.trans b2, a3.trans b3, a4.trans b4, a5.trans b5,
    a6.trans b6, a7.trans b7, a8.trans b8, a9.trans b9, a10.trans b10,
    a11.trans b11⟩

theorem processItem_orders (addr : String) (db : Db) (ctr : CartItem) :
    (processItem addr db ctr).orders = db.orders ++ [createdOrder db addr ctr] := by
  unfold processItem
  cases h : List.find? (fun p => p._id == ctr._id) db.products <;> simp [h]

theorem processItem_products_of_none (addr : String) (db : Db) (ctr : CartItem)
    (h : db.products.find? (fun p => p._id == ctr._id) = none) :
    (processItem addr db ctr).products = db.products := by
  unfold processItem
  simp [h]

theorem processItem_products_of_some (addr : String) (db : Db) (ctr : CartItem)
    (product : Product)
    (h : db.products.find? (fun p => p._id == ctr._id) = some product) :
    (processItem addr db ctr).products =
      setStock db.products ctr._id
        (max ((product.stock : ℤ) - (ctr.quantity : ℤ)) 0).toNat := by
  unfold processItem
  simp [h]

theorem setStock_preserves_id (pid : String) (s : Nat) (p : Product) :
    ((fun p => if p._id == pid then { p with stock := s } else p) p)._id = p._id := by
  by_cases h : p._id == pid <;> simp [h]

theorem find?_setStock (l : List Product) (pid qid : String) (s : Nat) :
    (setStock l qid s).find? (fun p => p._id == pid) =
      (l.find? (fun p => p._id == pid)).map
        (fun p => if p._id == qid then { p with stock := s } else p) := by
  unfold setStock
  have hp : ((fun p => p._id == pid) ∘
        fun p : Product => if p._id == qid then { p with stock := s } else p) =
      (fun p : Product => p._id == pid) := by
    funext p
    by_cases h : p._id == qid <;> simp [Function.comp, h]
  rw [List.find?_map, hp]

theorem find?_processItem_products (addr : String) (db : Db) (c : CartItem)
    (pid : String) (p0 : Product)
    (h : db.products.find? (fun p => p._id == pid) = some p0) :
    (processItem addr db c).products.find? (fun p => p._id == pid) =
      some (if c._id == pid then
        { p0 with stock := (max ((p0.stock : ℤ) - (c.quantity : ℤ)) 0).toNat }
      else p0) := by
  have hp0 : (p0._id == pid) = true := by simpa using List.find?_some h
  have hpeq : p0._id = pid := by simpa using hp0
  by_cases hc : c._id == pid
  · have hceq : c._id = pid := by simpa using hc
    have hfc : db.products.find? (fun p => p._id == c._id) = some p0 := by
      rw [hceq]; exact h
    rw [processItem_products_of_some addr db c p0 hfc, find?_setStock, h]
    simp [hp0, hc, hpeq, hceq]
  · have hcne : c._id ≠ pid := by simpa using hc
    have hpc : (p0._id == c._id) = false := by
      rw [hpeq]
      simp only [beq_eq_false_iff_ne, ne_eq]
      exact fun he => hcne he.symm
    cases hfc : db.products.find? (fun p => p._id == c._id) with
    | none =>
      rw [processItem_products_of_none addr db c hfc, h]
      simp [hc]
    | some prod =>
      rw [processItem_products_of_some addr db c prod hfc, find?_setStock, h]
      have h1 : ¬ p0._id = c._id := by
        rw [hpeq]
        exact fun he => hcne he.symm
      simp only [Option.map_some, beq_iff_eq, if_neg h1, if_neg hcne]
      simp [hc]
      exact fun he => absurd he h1

/-- After reconciling a list of line items, the first product record
matching `pid` has stock `max (original - total requested quantity) 0`. -/
theorem stock_after_processItems (addr pid : String) (items : List CartItem) :
    ∀ (db : Db) (p0 : Product),
      db.products.find? (fun p => p._id == pid) = some p0 →
      ∃ p1, (processItems db addr items).products.find? (fun p => p._id == pid) =
          some p1 ∧ p1._id = p0._id ∧
        (p1.stock : ℤ) = max ((p0.stock : ℤ) - (totalQty items pid : ℤ)) 0 := by
  induction items with
  | nil =>
    intro db p0 h
    refine ⟨p0, h, rfl, ?_⟩
    simp [totalQty]
  | cons c cs ih =>
    intro db p0 h
    have hstep := find?_processItem_products addr db c pid p0 h
    by_cases hc : c._id == pid
    · rw [if_pos hc] at hstep
      obtain ⟨p1, hfind, hid, hstock⟩ := ih (processItem addr db c) _ hstep
      refine ⟨p1, hfind, hid, ?_⟩
      simp only [totalQty, hc, if_pos] at *
      push_cast at hstock ⊢
      omega
    · rw [if_neg hc] at hstep
      obtain ⟨p1, hfind, hid, hstock⟩ := ih (processItem addr db c) p0 hstep
      refine ⟨p1, hfind, hid, ?_⟩
      have hcf : (c._id == pid) = false := by simpa using hc
      simpa [totalQty, hcf] using hstock

theorem forall₂_comp {α : Type} {R S T : α → α → Prop}
    (hcomp : ∀ a b c, R a b → S b c → T a c) :
    ∀ {l1 l2 l3 : List α}, List.Forall₂ R l1 l2 → List.Forall₂ S l2 l3 →
      List.Forall₂ T l1 l3 := by
  intro l1 l2 l3 h12
  induction h12 generalizing l3 with
  | nil =>
    intro h23
    cases h23
    exact .nil
  | cons hab h ih =>
    intro h23
    cases h23 with
    | cons hbc h2 => exact .cons (hcomp _ _ _ hab hbc) (ih h2)

theorem processItem_frame (addr : String) (db : Db) (c : CartItem) :
    List.Forall₂ (fun p q => agreesExceptStock p q ∧ (c._id ≠ p._id → q = p))
      db.products (processItem addr db c).products := by
  cases hfc : db.products.find? (fun p => p._id == c._id) with
  | none =>
    rw [processItem_products_of_none addr db c hfc]
    exact List.forall₂_same.mpr (fun p _ => ⟨agreesExceptStock_refl p, fun _ => rfl⟩)
  | some prod =>
    rw [processItem_products_of_some addr db c prod hfc]
    unfold setStock
    rw [List.forall₂_map_right_iff]
    refine List.forall₂_same.mpr (fun p _ => ?_)
    by_cases hp : p._id == c._id
    · have hpe : p._id = c._id := by simpa using hp
      refine ⟨?_, fun hne => absurd hpe.symm hne⟩
      simp [agreesExceptStock, hp]
    · refine ⟨?_, fun _ => ?_⟩ <;> simp [agreesExceptStock, hp]

theorem mem_orders_processItems (addr : String) (items : List CartItem) :
    ∀ (db : Db) (o : Order), o ∈ (processItems db addr items).orders →
      o ∈ db.orders ∨ ∃ c ∈ items, o.userId = c.userId := by
  induction items with
  | nil =>
    intro db o h
    exact .inl h
  | cons c cs ih =>
    intro db o h
    rcases ih (processItem addr db c) o h with h1 | h1
    · rw [processItem_orders] at h1
      rcases List.mem_append.mp h1 with h2 | h2
      · exact .inl h2
      · have he : o = createdOrder db addr c := by simpa using h2
        exact .inr ⟨c, List.mem_cons_self c cs, by rw [he]; rfl⟩
    · obtain ⟨x, hx, hu⟩ := h1
      exact .inr ⟨x, List.mem_cons_of_mem c hx, hu⟩

/-- Claim C2: for every product and every sequence of reconciled line items,
the product's stock after the decrements equals
max(0, original stock − sum of the requested quantities); in particular
stock never becomes negative regardless of the quantities requested. -/
theorem claim_c2_stock_clamped (db : Db) (addr : String) (items : List CartItem)
    (pid : String) (p0 : Product)
    (h : db.products.find? (fun p => p._id == pid) = some p0) :
    ∃ p1, (processItems db addr items).products.find? (fun p => p._id == pid) =
        some p1 ∧
      (p1.stock : ℤ) = max 0 ((p0.stock : ℤ) - (totalQty items pid : ℤ)) := by
  obtain ⟨p1, h1, _, h3⟩ := stock_after_processItems addr pid items db p0 h
  exact ⟨p1, h1, by rw [h3, max_comm]⟩

/-- Witness for claim C2 at the spec scenario: stock 2, requested quantity
5, resulting stock max(0, 2 − 5) = 0. -/
theorem claim_c2_stock_clamped_witness :
    ∃ p1, (processItems
        { orders := [],
          products := [{ _id := "P1", title := "T", price := 10, discount := 0,
                         stock := 2, category := "c", colors := [], sizes := [],
                         image1 := "i1", image2 := "i2", image3 := "i3",
                         description := "d" }] }
        "addr"
        [{ _id := "P1", size := "M", color := "red", quantity := 5,
           userId := "B1" }]).products.find? (fun p => p._id == "P1") =
        some p1 ∧
      (p1.stock : ℤ) =
        max 0 (((({ _id := "P1", title := "T", price := 10, discount := 0,
                    stock := 2, category := "c", colors := [], sizes := [],
                    image1 := "i1", image2 := "i2", image3 := "i3",
                    description := "d" } : Product).stock : ℤ)) -
          (totalQty [{ _id := "P1", size := "M", color := "red", quantity := 5,
                       userId := "B1" }] "P1" : ℤ)) :=
  claim_c2_stock_clamped _ "addr" _ "P1" _ (by decide)

/-- Claim C3: for every line item reconciled, the new Order's review flag is
true if and only if, at the time of the lookup, an order already exists for
the exact (product reference, buyer reference) pair with review eligibility
true; with no such prior order the new order is created with review
false. -/
theorem claim_c3_review_propagation (db : Db) (addr : String) (ctr : CartItem) :
    (processItem addr db ctr).orders = db.orders ++ [createdOrder db addr ctr] ∧
    ((createdOrder db addr ctr).review = true ↔
      ∃ o ∈ db.orders, o.productId = ctr._id ∧ o.userId = ctr.userId ∧
        o.review = true) := by
  refine ⟨processItem_orders addr db ctr, ?_⟩
  simp [createdOrder, List.any_eq_true, Bool.and_eq_true, beq_iff_eq,
    and_assoc]

/-- Claim C8: reconciling line items only ever rewrites the `stock` field of
product records: every product record in the updated store agrees with the
original on every field other than `stock`, and a product referenced by no
line item is completely unchanged. -/
theorem claim_c8_stock_update_frame (addr : String) (items : List CartItem) :
    ∀ db : Db, List.Forall₂
      (fun p q => agreesExceptStock p q ∧ ((∀ c ∈ items, c._id ≠ p._id) → q = p))
      db.products (processItems db addr items).products := by
  induction items with
  | nil =>
    intro db
    exact List.forall₂_same.mpr (fun p _ => ⟨agreesExceptStock_refl p, fun _ => rfl⟩)
  | cons c cs ih =>
    intro db
    refine forall₂_comp ?_ (processItem_frame addr db c) (ih (processItem addr db c))
    rintro p q r ⟨haq, hq⟩ ⟨hqr, hr⟩
    refine ⟨agreesExceptStock_trans haq hqr, fun hall => ?_⟩
    have hqp : q = p := hq (hall c (List.mem_cons_self c cs))
    have hcs : ∀ x ∈ cs, x._id ≠ q._id := by
      intro x hx
      rw [hqp]
      exact hall x (List.mem_cons_of_mem c hx)
    rw [hr hcs, hqp]

/-- Claim C9: every metadata line item carries the buyer reference resolved
server-side from the request's buyer identifier, identical across items; the
customer record snapshots exactly that list; and every order created when
the snapshot is reconciled either pre-existed or references that buyer. -/
theorem claim_c9_buyer_reference (users : List UserR) (cart : List ReqItem)
    (id : String) (st : StripeState) (user : UserR)
    (h : users.find? (fun u => u._id == id) = some user) :
    (∀ c ∈ orderData user cart, c.userId = user._id) ∧
    (paymentProcess users cart id st).2.customers =
      st.customers ++ [{ id := "cus_" ++ toString st.counter,
                         email := user.email,
                         metadataCart := some (orderData user cart) }] ∧
    ∀ (db : Db) (addr : String) (o : Order),
      o ∈ (processItems db addr (orderData user cart)).orders →
      o ∈ db.orders ∨ o.userId = user._id := by
  have huid : ∀ c ∈ orderData user cart, c.userId = user._id := by
    intro c hc
    simp only [orderData, List.mem_map] at hc
    obtain ⟨item, _, rfl⟩ := hc
    rfl
  refine ⟨huid, ?_, ?_⟩
  · simp [paymentProcess, h, createCustomer, createSession]
  · intro db addr o ho
    rcases mem_orders_processItems addr (orderData user cart) db o ho with h1 | h1
    · exact .inl h1
    · obtain ⟨c, hc, hu⟩ := h1
      exact .inr (by rw [hu]; exact huid c hc)

/-- Witness for claim C9: a one-item cart for buyer B1; the provider
customer record snapshots the resolved buyer id. -/
theorem claim_c9_buyer_reference_witness :
    (paymentProcess [{ _id := "B1", email := "b1@shop.example" }]
        [{ _id := "P1", size := "M", color := "red", quantity := 3,
           price := 1000, discount := 10, title := "P1 shirt" }] "B1"
        { customers := [], sessions := [], counter := 0 }).2.customers =
      [] ++ [{ id := "cus_" ++ toString 0, email := "b1@shop.example",
               metadataCart := some (orderData
                 { _id := "B1", email := "b1@shop.example" }
                 [{ _id := "P1", size := "M", color := "red", quantity := 3,
                    price := 1000, discount := 10, title := "P1 shirt" }]) }] :=
  (claim_c9_buyer_reference [{ _id := "B1", email := "b1@shop.example" }]
    [{ _id := "P1", size := "M", color := "red", quantity := 3,
       price := 1000, discount := 10, title := "P1 shirt" }] "B1"
    { customers := [], sessions := [], counter := 0 }
    { _id := "B1", email := "b1@shop.example" } (by decide)).2.1

/-- Claim C10: with an empty cart and a resolvable buyer, `paymentProcess`
still succeeds: it creates a provider customer whose metadata snapshot is
the empty list, requests a checkout session with zero line items, and
returns the provider-issued redirect URL. -/
theorem claim_c10_empty_cart (users : List UserR) (id : String)
    (st : StripeState) (user : UserR)
    (h : users.find? (fun u => u._id == id) = some user) :
    ∃ s : Session,
      (paymentProcess users [] id st).1 = .ok s.url ∧
      (paymentProcess users [] id st).2.sessions = st.sessions ++ [s] ∧
      s.line_items = [] ∧
      (paymentProcess users [] id st).2.customers =
        st.customers ++ [{ id := "cus_" ++ toString st.counter,
                           email := user.email, metadataCart := some [] }] := by
  refine ⟨{ id := "cs_" ++ toString (st.counter + 1),
            customer := "cus_" ++ toString st.counter,
            line_items := [],
            url := "https://checkout.example/" ++ ("cs_" ++ toString (st.counter + 1)),
            payment_status := "unpaid" }, ?_, ?_, rfl, ?_⟩ <;>
    simp [paymentProcess, h, createCustomer, createSession, orderData]

/-- Witness for claim C10: empty cart, known buyer B1, fresh provider
state. -/
theorem claim_c10_empty_cart_witness :
    ∃ s : Session,
      (paymentProcess [{ _id := "B1", email := "b1@shop.example" }] [] "B1"
        { customers := [], sessions := [], counter := 0 }).1 = .ok s.url ∧
      (paymentProcess [{ _id := "B1", email := "b1@shop.example" }] [] "B1"
        { customers := [], sessions := [], counter := 0 }).2.sessions =
        [] ++ [s] ∧
      s.line_items = [] ∧
      (paymentProcess [{ _id := "B1", email := "b1@shop.example" }] [] "B1"
        { customers := [], sessions := [], counter := 0 }).2.customers =
        [] ++ [{ id := "cus_" ++ toString 0, email := "b1@shop.example",
                 metadataCart := some [] }] :=
  claim_c10_empty_cart [{ _id := "B1", email := "b1@shop.example" }] "B1"
    { customers := [], sessions := [], counter := 0 }
    { _id := "B1", email := "b1@shop.example" } (by decide)

/-- Claim C1 is violated by the code: the webhook handler deduplicates
nothing, so delivering the same completed-checkout event (same customer
reference and metadata payload) twice against a store holding product P1
with stock 5 and a one-line-item (quantity 1) intent creates two orders and
applies the clamped stock decrement twice (stock 3), instead of the single
order and single net decrement the claim requires. -/
theorem claim_c1_double_delivery_duplicates :
    (let ev : Event := { type := "checkout.session.completed", data := { customer := "cus_0", address := "addr" } }
     let custs : List Customer :=
       [{ id := "cus_0", email := "b1@shop.example",
          metadataCart := some [{ _id := "P1", size := "M", color := "red",
                                  quantity := 1, userId := "B1" }] }]
     let db0 : Db := { orders := [],
                       products := [{ _id := "P1", title := "T", price := 1000,
                                      discount := 10, stock := 5, category := "c",
                                      colors := [], sizes := [], image1 := "i1",
                                      image2 := "i2", image3 := "i3",
                                      description := "d" }] }
     let db2 :=
       ((checkOutSession (some ev) custs
         ((checkOutSession (some ev) custs db0).db)).db)
     db2.orders.length = 2 ∧ db2.products.map Product.stock = [3]) := by
  decide

/-- Claim C4 counterexample: for the spec scenario (price 1000, discount 10)
the unit amount actually sent to the provider is 90000 minor units, not the
900 the claim states. -/
theorem claim_c4_counterexample_unit_amount :
    (paymentProcess [{ _id := "B1", email := "b1@shop.example" }]
        [{ _id := "P1", size := "M", color := "red", quantity := 3,
           price := 1000, discount := 10, title := "P1 shirt" }] "B1"
        { customers := [], sessions := [], counter := 0 }).2.sessions.map
      (fun s => s.line_items.map LineItem.unit_amount_decimal) = [[90000]] ∧
    (90000 : ℤ) ≠ 900 := by
  constructor
  · norm_num [paymentProcess, createCustomer, createSession, lineItemOf,
      jsRound]
  · decide

/-- Claim C4 (amended): the per-unit amount sent to the provider for each
line item equals 100 × round(price − price×discount/100) minor currency
units — the discounted price rounded to a whole major unit and then
converted to cents; for price 1000 and discount 10 this is 90000 cents. -/
theorem claim_c4_amended_unit_amount (users : List UserR) (cart : List ReqItem)
    (id : String) (st : StripeState) (user : UserR)
    (h : users.find? (fun u => u._id == id) = some user) :
    ∃ s : Session,
      (paymentProcess users cart id st).1 = .ok s.url ∧
      (paymentProcess users cart id st).2.sessions = st.sessions ++ [s] ∧
      s.line_items = cart.map (fun item =>
        { name := item.title,
          unit_amount_decimal :=
            100 * jsRound (item.price - item.price * item.discount / 100),
          quantity := item.quantity }) := by
  refine ⟨{ id := "cs_" ++ toString (st.counter + 1),
            customer := "cus_" ++ toString st.counter,
            line_items := cart.map lineItemOf,
            url := "https://checkout.example/" ++
              ("cs_" ++ toString (st.counter + 1)),
            payment_status := "unpaid" }, ?_, ?_, ?_⟩
  · simp [paymentProcess, h, createCustomer, createSession]
  · simp [paymentProcess, h, createCustomer, createSession]
  · refine List.map_congr_left (fun item _ => ?_)
    simp [lineItemOf, mul_div_assoc, mul_comm]

/-- Witness for the amended claim C4: one line item with price 999 and
discount 25. -/
theorem claim_c4_amended_unit_amount_witness :
    ∃ s : Session,
      (paymentProcess [{ _id := "B2", email := "b2@shop.example" }]
        [{ _id := "P2", size := "L", color := "blue", quantity := 2,
           price := 999, discount := 25, title := "P2 coat" }] "B2"
        { customers := [], sessions := [], counter := 0 }).1 = .ok s.url ∧
      (paymentProcess [{ _id := "B2", email := "b2@shop.example" }]
        [{ _id := "P2", size := "L", color := "blue", quantity := 2,
           price := 999, discount := 25, title := "P2 coat" }] "B2"
        { customers := [], sessions := [], counter := 0 }).2.sessions =
        [] ++ [s] ∧
      s.line_items = [{ _id := "P2", size := "L", color := "blue",
                        quantity := 2, price := (999 : ℚ),
                        discount := (25 : ℚ),
                        title := "P2 coat" }].map (fun item : ReqItem =>
        { name := item.title,
          unit_amount_decimal :=
            100 * jsRound (item.price - item.price * item.discount / 100),
          quantity := item.quantity }) :=
  claim_c4_amended_unit_amount [{ _id := "B2", email := "b2@shop.example" }]
    [{ _id := "P2", size := "L", color := "blue", quantity := 2,
       price := 999, discount := 25, title := "P2 coat" }] "B2"
    { customers := [], sessions := [], counter := 0 }
    { _id := "B2", email := "b2@shop.example" } (by decide)

/-- Claim C5 counterexample: a delivery that passes signature verification
(a verified `checkout.session.completed` event) whose customer metadata
blob is absent makes the handler throw: no response at all is sent, in
particular no 2xx acknowledgment. -/
theorem claim_c5_counterexample_no_ack :
    checkOutSession (some { type := "checkout.session.completed", data := { customer := "cus_5", address := "a5" } })
      [{ id := "cus_5", email := "e5@shop.example", metadataCart := none }]
      { orders := [], products := [] } =
      .thrown { orders := [], products := [] } ∧
    WebhookOutcome.thrown { orders := [], products := [] } ≠
      WebhookOutcome.reply 200 { orders := [], products := [] } := by
  decide

/-- Claim C5 (amended): a failed signature verification is answered 400 with
no further processing; a verified event is acknowledged 2xx for every event
type — including after line-item reconciliation, whose per-item failures
cannot reach the response — except that a completed-checkout event whose
customer lookup fails or whose metadata blob is absent/unparsable makes the
handler throw, sending no response at all. -/
theorem claim_c5_amended_ack_dispatch (verified : Option Event)
    (customers : List Customer) (db : Db) :
    (verified = none → checkOutSession verified customers db = .reply 400 db) ∧
    (∀ e, verified = some e → e.type ≠ "checkout.session.completed" →
      checkOutSession verified customers db = .reply 200 db) ∧
    (∀ e c cart, verified = some e → e.type = "checkout.session.completed" →
      customers.find? (fun x => x.id == e.data.customer) = some c →
      c.metadataCart = some cart →
      checkOutSession verified customers db =
        .reply 200 (processItems db e.data.address cart)) ∧
    (∀ e, verified = some e → e.type = "checkout.session.completed" →
      customers.find? (fun x => x.id == e.data.customer) = none →
      checkOutSession verified customers db = .thrown db) ∧
    (∀ e c, verified = some e → e.type = "checkout.session.completed" →
      customers.find? (fun x => x.id == e.data.customer) = some c →
      c.metadataCart = none →
      checkOutSession verified customers db = .thrown db) := by
  refine ⟨?_, ?_, ?_, ?_, ?_⟩
  · rintro rfl
    rfl
  · rintro e rfl hne
    simp [checkOutSession, hne]
  · rintro e c cart rfl ht hf hm
    simp [checkOutSession, ht, hf, hm]
  · rintro e rfl ht hf
    simp [checkOutSession, ht, hf]
  · rintro e c rfl ht hf hm
    simp [checkOutSession, ht, hf, hm]

/-- Witness for the amended claim C5: a failed verification is answered
400; a verified event of an unhandled type is acknowledged 200. -/
theorem claim_c5_amended_ack_dispatch_witness :
    checkOutSession none [] { orders := [], products := [] } =
      .reply 400 { orders := [], products := [] } ∧
    checkOutSession (some { type := "payment_intent.succeeded", data := { customer := "cus_1", address := "a1" } }) []
      { orders := [], products := [] } =
      .reply 200 { orders := [], products := [] } :=
  ⟨(claim_c5_amended_ack_dispatch none []
      { orders := [], products := [] }).1 rfl,
   (claim_c5_amended_ack_dispatch
      (some { type := "payment_intent.succeeded", data := { customer := "cus_1", address := "a1" } }) []
      { orders := [], products := [] }).2.1
     { type := "payment_intent.succeeded", data := { customer := "cus_1", address := "a1" } } rfl (by decide)⟩

/-- Claim C6 counterexample: a completed-checkout event whose retrieved
customer has no parsable metadata blob leaves the store untouched but is
NOT acknowledged with a success response: the handler throws and no
response is sent. -/
theorem claim_c6_counterexample_not_acknowledged :
    checkOutSession (some { type := "checkout.session.completed", data := { customer := "cus_9", address := "a9" } })
      [{ id := "cus_9", email := "e9@shop.example", metadataCart := none }]
      { orders := [],
        products := [{ _id := "P9", title := "T9", price := 50,
                       discount := 0, stock := 7, category := "c",
                       colors := [], sizes := [], image1 := "i1",
                       image2 := "i2", image3 := "i3",
                       description := "d" }] } =
      .thrown { orders := [],
                products := [{ _id := "P9", title := "T9", price := 50,
                               discount := 0, stock := 7, category := "c",
                               colors := [], sizes := [], image1 := "i1",
                               image2 := "i2", image3 := "i3",
                               description := "d" }] } ∧
    WebhookOutcome.thrown { orders := [], products := [] } ≠
      WebhookOutcome.reply 200 { orders := [], products := [] } := by
  decide

/-- Claim C6 (amended): when the retrieved customer's metadata blob is
absent or unparsable, the reconciler creates no orders and changes no stock
(the store is returned unchanged), but the parse exception escapes the
handler and the event is NOT acknowledged: no response is sent to the
provider. -/
theorem claim_c6_amended_malformed_throws (customers : List Customer)
    (db : Db) (e : Event) (c : Customer)
    (h1 : e.type = "checkout.session.completed")
    (h2 : customers.find? (fun x => x.id == e.data.customer) = some c)
    (h3 : c.metadataCart = none) :
    checkOutSession (some e) customers db = .thrown db := by
  simp [checkOutSession, h1, h2, h3]

/-- Witness for the amended claim C6: a malformed intent leaves a non-empty
store exactly as it was, with no response sent. -/
theorem claim_c6_amended_malformed_throws_witness :
    checkOutSession (some { type := "checkout.session.completed", data := { customer := "cus_6", address := "a6" } })
      [{ id := "cus_6", email := "e6@shop.example", metadataCart := none }]
      { orders := [{ productId := "P6", userId := "B6", size := "S",
                     color := "green", quantities := 1, address := "x",
                     review := false }],
        products := [{ _id := "P6", title := "T6", price := 20,
                       discount := 5, stock := 9, category := "c",
                       colors := [], sizes := [], image1 := "i1",
                       image2 := "i2", image3 := "i3",
                       description := "d" }] } =
      .thrown { orders := [{ productId := "P6", userId := "B6", size := "S",
                             color := "green", quantities := 1, address := "x",
                             review := false }],
                products := [{ _id := "P6", title := "T6", price := 20,
                               discount := 5, stock := 9, category := "c",
                               colors := [], sizes := [], image1 := "i1",
                               image2 := "i2", image3 := "i3",
                               description := "d" }] } :=
  claim_c6_amended_malformed_throws
    [{ id := "cus_6", email := "e6@shop.example", metadataCart := none }]
    _ { type := "checkout.session.completed", data := { customer := "cus_6", address := "a6" } }
    { id := "cus_6", email := "e6@shop.example", metadataCart := none }
    rfl (by decide) rfl

/-- Claim C7 counterexample: for a session identifier the provider does not
know, the status query responds 500, not the 404 the claim states. -/
theorem claim_c7_counterexample_500_not_404 :
    (paymentVerify [] "cs_missing").1 = 500 ∧
    (paymentVerify [] "cs_missing").1 ≠ 404 := by
  decide

/-- Claim C7 (amended): if the provider has a session for the identifier,
the query returns that session's payment status verbatim with a 200
response and touches no local state; if the provider has no such session,
the query responds 500 with the provider error message (it is not surfaced
as 404). -/
theorem claim_c7_amended_status_query (sessions : List Session) (id : String) :
    (∀ s, sessions.find? (fun t => t.id == id) = some s →
      paymentVerify sessions id =
        (200, .ok "Your payment has verfied successfully" s.payment_status)) ∧
    (sessions.find? (fun t => t.id == id) = none →
      (paymentVerify sessions id).1 = 500) := by
  constructor
  · intro s hs
    simp [paymentVerify, hs]
  · intro hn
    simp [paymentVerify, hn]

/-- Witness for the amended claim C7: a known session with status `paid` is
reported verbatim with 200. -/
theorem claim_c7_amended_status_query_witness :
    paymentVerify [{ id := "cs_1", customer := "cus_1", line_items := [],
                     url := "u", payment_status := "paid" }] "cs_1" =
      (200, .ok "Your payment has verfied successfully" "paid") :=
  (claim_c7_amended_status_query
      [{ id := "cs_1", customer := "cus_1", line_items := [], url := "u",
         payment_status := "paid" }] "cs_1").1
    { id := "cs_1", customer := "cus_1", line_items := [], url := "u",
      payment_status := "paid" } (by decide)

end ShopIt
